import Mathlib

/-!
Verification of `tools/omnissm/pkg/servicectl/service.go`.

The Go module detects which process supervision backend (systemd, upstart,
SysV) is active on a host and exposes Start/Stop/Restart over the matching
command-line tool.  We shallowly embed it here:

* Subprocess execution (`exec.Command(cmd, args...).CombinedOutput()`) is
  modelled by an environment function `ExecEnv` mapping an argument vector
  to the combined output and the exit code of the process.
* Every control operation returns, besides its error value, the list of
  observable events it performs in order: subprocess spawns (with the exact
  argument vector) and `time.Sleep` calls (with the duration in ms).
* Filesystem probes (`os.Stat`), the output of `/sbin/init --version` and
  `exec.LookPath` are fields of a `DetectEnv` record.
-/

namespace Servicectl

/-- A single subprocess invocation: executable and argument vector, exactly
as handed to `exec.Command(cmd, args...)` (direct exec, no shell). -/
structure Invocation where
  cmd : String
  args : List String
deriving DecidableEq

/-- Result of a subprocess: combined stdout+stderr and the exit code
(0 means success, mirroring `err == nil` from `CombinedOutput`). -/
structure ExecResult where
  output : String
  exitCode : Nat
deriving DecidableEq

/-- The OS exec layer: what each possible invocation would produce. -/
abbrev ExecEnv := Invocation → ExecResult

/-- Observable side effects of a control operation, in program order. -/
inductive Event where
  | exec (inv : Invocation)
  | sleep (ms : Nat)
deriving DecidableEq

/-- The error built by `run` on a non-zero exit:
`errors.Wrapf(err, "%s command failed", cmd)` wrapping the `exec.ExitError`. -/
structure RunError where
  cmd : String
  exitCode : Nat
deriving DecidableEq

/-- Rendered message of the wrapped error, as `Error()` would print it:
the `%s command failed` prefix followed by the `exit status N` of the
underlying `exec.ExitError`.  The captured output is not part of it. -/
def RunError.message (e : RunError) : String :=
  e.cmd ++ (" command failed: exit status " ++ toString e.exitCode)

/-- Go `run(cmd, args...)`: spawns the process, returns the combined output
and, on non-zero exit, the wrapped error.  The first component is the event
trace (a single spawn). -/
def run (ex : ExecEnv) (cmd : String) (args : List String) :
    List Event × String × Option RunError :=
  let r := ex ⟨cmd, args⟩
  ([Event.exec ⟨cmd, args⟩], r.output,
    if r.exitCode = 0 then none else some ⟨cmd, r.exitCode⟩)

/-- Go `type upstart struct { cmd, name string }`. -/
structure upstart where
  cmd : String
  name : String
deriving DecidableEq

/-- Go `(u *upstart) Start()`: `run(u.cmd, "start", u.name)`, output discarded. -/
def upstart.Start (u : upstart) (ex : ExecEnv) : List Event × Option RunError :=
  let (tr, _, err) := run ex u.cmd ["start", u.name]
  (tr, err)

/-- Go `(u *upstart) Stop()`: `run(u.cmd, "stop", u.name)`, output discarded. -/
def upstart.Stop (u : upstart) (ex : ExecEnv) : List Event × Option RunError :=
  let (tr, _, err) := run ex u.cmd ["stop", u.name]
  (tr, err)

/-- Go `(u *upstart) Restart()`: `_ = u.Stop()` (error ignored), then
`time.Sleep(50 * time.Millisecond)`, then `return u.Start()`. -/
def upstart.Restart (u : upstart) (ex : ExecEnv) : List Event × Option RunError :=
  let (trStop, _) := u.Stop ex
  let (trStart, err) := u.Start ex
  (trStop ++ [Event.sleep 50] ++ trStart, err)

/-- Go `type systemd struct { cmd, name string }`. -/
structure systemd where
  cmd : String
  name : String
deriving DecidableEq

/-- Go `(s *systemd) Start()`: `run(s.cmd, "start", s.name)`. -/
def systemd.Start (s : systemd) (ex : ExecEnv) : List Event × Option RunError :=
  let (tr, _, err) := run ex s.cmd ["start", s.name]
  (tr, err)

/-- Go `(s *systemd) Stop()`: `run(s.cmd, "stop", s.name)`. -/
def systemd.Stop (s : systemd) (ex : ExecEnv) : List Event × Option RunError :=
  let (tr, _, err) := run ex s.cmd ["stop", s.name]
  (tr, err)

/-- Go `(s *systemd) Restart()`: `run(s.cmd, "restart", s.name)`. -/
def systemd.Restart (s : systemd) (ex : ExecEnv) : List Event × Option RunError :=
  let (tr, _, err) := run ex s.cmd ["restart", s.name]
  (tr, err)

/-- Go `type sysV struct { cmd, name string }`. -/
structure sysV where
  cmd : String
  name : String
deriving DecidableEq

/-- Go `(s *sysV) Start()`: `run(s.cmd, s.name, "start")` (name first). -/
def sysV.Start (s : sysV) (ex : ExecEnv) : List Event × Option RunError :=
  let (tr, _, err) := run ex s.cmd [s.name, "start"]
  (tr, err)

/-- Go `(s *sysV) Stop()`: `run(s.cmd, s.name, "stop")` (name first). -/
def sysV.Stop (s : sysV) (ex : ExecEnv) : List Event × Option RunError :=
  let (tr, _, err) := run ex s.cmd [s.name, "stop"]
  (tr, err)

/-- Go `(s *sysV) Restart()`: `err := s.Stop(); if err != nil { return err }`,
then `time.Sleep(50 * time.Millisecond)`, then `return s.Start()`. -/
def sysV.Restart (s : sysV) (ex : ExecEnv) : List Event × Option RunError :=
  match s.Stop ex with
  | (trStop, some e) => (trStop, some e)
  | (trStop, none) =>
    let (trStart, err) := s.Start ex
    (trStop ++ [Event.sleep 50] ++ trStart, err)

/-- Boolean test that `pre` is an initial segment of the second list. -/
def isPrefixL : List Char → List Char → Bool
  | [], _ => true
  | _ :: _, [] => false
  | a :: as, b :: bs => a == b && isPrefixL as bs

/-- Boolean substring containment on character lists, the semantics of Go
`strings.Contains(hay, needle)`. -/
def containsL : List Char → List Char → Bool
  | [], needle => isPrefixL needle []
  | c :: rest, needle =>
    if isPrefixL needle (c :: rest) then true else containsL rest needle

/-- Go `strings.Contains(s, sub)`. -/
def strContains (s sub : String) : Bool :=
  containsL s.toList sub.toList

/-- The host environment seen by the detector and by `New`:
which paths `os.Stat` finds, what `/sbin/init --version` prints (`none`
when that subprocess errors), and what `exec.LookPath` resolves. -/
structure DetectEnv where
  stat : String → Bool
  initVersionOut : Option String
  lookPath : String → Option String

/-- Go `isSystemd()`: `os.Stat("/run/systemd/system")` succeeds. -/
def isSystemd (env : DetectEnv) : Bool :=
  env.stat "/run/systemd/system"

/-- Go `isSysV()`: `os.Stat("/usr/sbin/service")` succeeds. -/
def isSysV (env : DetectEnv) : Bool :=
  env.stat "/usr/sbin/service"

/-- Go `isUpstart()`, instrumented: the first component is the detection
result, the second records whether the `/sbin/init --version` subprocess
was spawned.  Mirrors the source: return true at the bridge binary; else,
if `/sbin/init` exists, run it and test its output for "init (upstart". -/
def isUpstartT (env : DetectEnv) : Bool × Bool :=
  if env.stat "/sbin/upstart-udev-bridge" then (true, false)
  else if env.stat "/sbin/init" then
    match env.initVersionOut with
    | some out => (strContains out "init (upstart", true)
    | none => (false, true)
  else (false, false)

/-- Go `isUpstart()`. -/
def isUpstart (env : DetectEnv) : Bool :=
  (isUpstartT env).1

/-- The backend kind selected by `New`. -/
inductive Backend where
  | systemd
  | upstart
  | sysV
deriving DecidableEq

/-- The handle `New` returns: backend kind, resolved binary, service name. -/
structure Handle where
  backend : Backend
  cmd : String
  name : String
deriving DecidableEq

/-- The two failure modes of `New`: `exec.LookPath` failed for the chosen
backend's binary, or no backend was detected
(`errors.Errorf("cannot detect service manager")`). -/
inductive NewError where
  | lookPathFailed (bin : String)
  | detectionFailed
deriving DecidableEq

/-- Go `New(name)`: checks `isSystemd`, `isUpstart`, `isSysV` in that order,
resolves the matching binary (`systemctl` / `initctl` / `service`) via
`exec.LookPath`, and builds the corresponding variant. -/
def New (env : DetectEnv) (name : String) : Except NewError Handle :=
  if isSystemd env then
    match env.lookPath "systemctl" with
    | some cmd => Except.ok ⟨Backend.systemd, cmd, name⟩
    | none => Except.error (NewError.lookPathFailed "systemctl")
  else if isUpstart env then
    match env.lookPath "initctl" with
    | some cmd => Except.ok ⟨Backend.upstart, cmd, name⟩
    | none => Except.error (NewError.lookPathFailed "initctl")
  else if isSysV env then
    match env.lookPath "service" with
    | some cmd => Except.ok ⟨Backend.sysV, cmd, name⟩
    | none => Except.error (NewError.lookPathFailed "service")
  else
    Except.error NewError.detectionFailed

/-- Number of subprocess spawns in an event trace. -/
def countExecs (tr : List Event) : Nat :=
  tr.countP (fun e => match e with | Event.exec _ => true | Event.sleep _ => false)

/-- Holds of a trace event when any spawned process got the expected binary,
a two-element argument vector, and the service name verbatim as one element. -/
def eventNameIntact (cmd name : String) : Event → Bool
  | Event.exec inv => decide (inv.cmd = cmd ∧ inv.args.length = 2 ∧ name ∈ inv.args)
  | Event.sleep _ => true

/-- An exec layer where every subprocess fails with output "boom". -/
def exBoom : ExecEnv := fun _ => ⟨"boom", 1⟩

/-- An exec layer where stopping the service "db" fails and all else succeeds. -/
def exStopFails : ExecEnv := fun inv => if inv.args = ["db", "stop"] then ⟨"fail", 1⟩ else ⟨"", 0⟩

/-- A host with both the systemd runtime directory and the upstart bridge
binary present, and `systemctl` on the path. -/
def envBoth : DetectEnv where
  stat p := p == "/run/systemd/system" || p == "/sbin/upstart-udev-bridge"
  initVersionOut := none
  lookPath b := if b == "systemctl" then some "/usr/bin/systemctl" else none

/-- A host with no supervision backend artifacts at all. -/
def envNone : DetectEnv where
  stat _ := false
  initVersionOut := none
  lookPath _ := none

/- Helper lemmas about substring containment. -/

theorem isPrefixL_self_append (a b : List Char) : isPrefixL a (a ++ b) = true := by
  induction a with
  | nil => rfl
  | cons x xs ih => simp [isPrefixL, ih]

theorem containsL_self_append (a b : List Char) : containsL (a ++ b) a = true := by
  cases a with
  | nil =>
    cases b with
    | nil => rfl
    | cons c rest => simp [containsL, isPrefixL]
  | cons x xs =>
    simp [containsL]
    exact Or.inl (isPrefixL_self_append (x :: xs) b)

theorem strContains_self_append (a b : String) : strContains (a ++ b) a = true := by
  unfold strContains
  show containsL (a ++ b).data a.data = true
  rw [String.data_append]
  exact containsL_self_append _ _

/-- The rendered `run` error message always contains the tool name. -/
theorem message_has_cmd (cmd : String) (k : Nat) :
    strContains (RunError.message ⟨cmd, k⟩) cmd = true :=
  strContains_self_append cmd (" command failed: exit status " ++ toString k)

/-- Any error produced by `run` carries the invoked tool's name, and its
message contains that name. -/
theorem run_error_names_tool (ex : ExecEnv) (cmd : String) (args : List String)
    (e : RunError) (h : (run ex cmd args).2.2 = some e) :
    e.cmd = cmd ∧ strContains (RunError.message e) cmd = true := by
  unfold run at h
  by_cases h0 : (ex ⟨cmd, args⟩).exitCode = 0
  · simp [h0] at h
  · simp [h0] at h
    rw [← h]
    exact ⟨rfl, message_has_cmd cmd _⟩

/-- Claim C1: detection runs the systemd, upstart and SysV checks in that
fixed order and the first success picks the backend; in particular, on any
host where both the systemd runtime-directory marker and the upstart bridge
binary are present, `New` takes the systemd branch: the upstart check would
also succeed, yet the result is entirely determined by the `systemctl`
lookup and, when that lookup succeeds, is the systemd handle. -/
theorem new_prefers_systemd (env : DetectEnv) (name : String)
    (h1 : env.stat "/run/systemd/system" = true)
    (h2 : env.stat "/sbin/upstart-udev-bridge" = true) :
    isUpstart env = true ∧
    New env name = (match env.lookPath "systemctl" with
      | some p => Except.ok ⟨Backend.systemd, p, name⟩
      | none => Except.error (NewError.lookPathFailed "systemctl")) := by
  refine ⟨?_, ?_⟩
  · simp [isUpstart, isUpstartT, h2]
  · simp [New, isSystemd, h1]

/-- Witness for C1 at a concrete host with both markers. -/
theorem new_prefers_systemd_witness :
    envBoth.stat "/run/systemd/system" = true ∧
    envBoth.stat "/sbin/upstart-udev-bridge" = true ∧
    New envBoth "nginx" =
      Except.ok ⟨Backend.systemd, "/usr/bin/systemctl", "nginx"⟩ :=
  ⟨rfl, rfl, (new_prefers_systemd envBoth "nginx" rfl rfl).2⟩

/-- Claim C2: exact argument vectors of the Start/Stop operations: systemd
and upstart put the subcommand before the name, SysV puts the name before
the subcommand. -/
theorem start_stop_argument_vectors (cmd name : String) (ex : ExecEnv) :
    (systemd.Start ⟨cmd, name⟩ ex).1 = [Event.exec ⟨cmd, ["start", name]⟩] ∧
    (systemd.Stop ⟨cmd, name⟩ ex).1 = [Event.exec ⟨cmd, ["stop", name]⟩] ∧
    (upstart.Start ⟨cmd, name⟩ ex).1 = [Event.exec ⟨cmd, ["start", name]⟩] ∧
    (upstart.Stop ⟨cmd, name⟩ ex).1 = [Event.exec ⟨cmd, ["stop", name]⟩] ∧
    (sysV.Start ⟨cmd, name⟩ ex).1 = [Event.exec ⟨cmd, [name, "start"]⟩] ∧
    (sysV.Stop ⟨cmd, name⟩ ex).1 = [Event.exec ⟨cmd, [name, "stop"]⟩] :=
  ⟨rfl, rfl, rfl, rfl, rfl, rfl⟩

/-- Claim C3: when the stop step of the SysV restart fails, that stop error
is returned as is, and the trace holds only the stop spawn: no start
subprocess is spawned. -/
theorem sysv_restart_stop_short_circuit (cmd name : String) (ex : ExecEnv)
    (h : (ex ⟨cmd, [name, "stop"]⟩).exitCode ≠ 0) :
    sysV.Restart ⟨cmd, name⟩ ex =
      ([Event.exec ⟨cmd, [name, "stop"]⟩],
        some ⟨cmd, (ex ⟨cmd, [name, "stop"]⟩).exitCode⟩) := by
  simp [sysV.Restart, sysV.Stop, run, h]

/-- Witness for C3: stopping "db" fails, restart returns the stop error and
spawns nothing further. -/
theorem sysv_restart_stop_short_circuit_witness :
    (exStopFails ⟨"/usr/sbin/service", ["db", "stop"]⟩).exitCode ≠ 0 ∧
    sysV.Restart ⟨"/usr/sbin/service", "db"⟩ exStopFails =
      ([Event.exec ⟨"/usr/sbin/service", ["db", "stop"]⟩],
        some ⟨"/usr/sbin/service", 1⟩) :=
  ⟨by decide,
    sysv_restart_stop_short_circuit "/usr/sbin/service" "db" exStopFails (by decide)⟩

/-- Claim C4: the upstart restart ignores the stop step's error and always
spawns the start subprocess; its overall result is exactly the start
step's result, so restart succeeds iff start succeeds. -/
theorem upstart_restart_ignores_stop_error (cmd name : String) (ex : ExecEnv) :
    (upstart.Restart ⟨cmd, name⟩ ex).2 = (upstart.Start ⟨cmd, name⟩ ex).2 ∧
    Event.exec ⟨cmd, ["start", name]⟩ ∈ (upstart.Restart ⟨cmd, name⟩ ex).1 := by
  refine ⟨rfl, ?_⟩
  simp [upstart.Restart, upstart.Start, upstart.Stop, run]

/-- Claim C5, counterexample: the claim says a failing operation's error
includes both the tool name and the captured combined output.  On an exec
layer whose processes fail with output "boom", the upstart Start returns
the wrapped error, whose message names the tool yet nowhere contains the
captured output: `run` hands the output back separately and the operation
discards it. -/
theorem op_error_omits_output_cex :
    (upstart.Start ⟨"initctl", "nginx"⟩ exBoom).2 = some ⟨"initctl", 1⟩ ∧
    (exBoom ⟨"initctl", ["start", "nginx"]⟩).output = "boom" ∧
    RunError.message ⟨"initctl", 1⟩ = "initctl command failed: exit status 1" ∧
    strContains (RunError.message ⟨"initctl", 1⟩) "boom" = false := by
  refine ⟨rfl, rfl, rfl, ?_⟩
  decide

/-- Claim C5, amended: when the invoked tool exits non-zero, every control
operation of every variant returns the wrapped `run` error, which carries
the tool name and whose message contains that name; the captured combined
output is returned by `run` but discarded by the operations and is not part
of the error. -/
theorem op_error_names_tool (cmd name : String) (ex : ExecEnv) :
    (∀ e, (upstart.Start ⟨cmd, name⟩ ex).2 = some e →
      e.cmd = cmd ∧ strContains (RunError.message e) cmd = true) ∧
    (∀ e, (upstart.Stop ⟨cmd, name⟩ ex).2 = some e →
      e.cmd = cmd ∧ strContains (RunError.message e) cmd = true) ∧
    (∀ e, (upstart.Restart ⟨cmd, name⟩ ex).2 = some e →
      e.cmd = cmd ∧ strContains (RunError.message e) cmd = true) ∧
    (∀ e, (systemd.Start ⟨cmd, name⟩ ex).2 = some e →
      e.cmd = cmd ∧ strContains (RunError.message e) cmd = true) ∧
    (∀ e, (systemd.Stop ⟨cmd, name⟩ ex).2 = some e →
      e.cmd = cmd ∧ strContains (RunError.message e) cmd = true) ∧
    (∀ e, (systemd.Restart ⟨cmd, name⟩ ex).2 = some e →
      e.cmd = cmd ∧ strContains (RunError.message e) cmd = true) ∧
    (∀ e, (sysV.Start ⟨cmd, name⟩ ex).2 = some e →
      e.cmd = cmd ∧ strContains (RunError.message e) cmd = true) ∧
    (∀ e, (sysV.Stop ⟨cmd, name⟩ ex).2 = some e →
      e.cmd = cmd ∧ strContains (RunError.message e) cmd = true) ∧
    (∀ e, (sysV.Restart ⟨cmd, name⟩ ex).2 = some e →
      e.cmd = cmd ∧ strContains (RunError.message e) cmd = true) := by
  refine ⟨fun e h => run_error_names_tool ex cmd _ e h,
    fun e h => run_error_names_tool ex cmd _ e h,
    fun e h => run_error_names_tool ex cmd _ e h,
    fun e h => run_error_names_tool ex cmd _ e h,
    fun e h => run_error_names_tool ex cmd _ e h,
    fun e h => run_error_names_tool ex cmd _ e h,
    fun e h => run_error_names_tool ex cmd _ e h,
    fun e h => run_error_names_tool ex cmd _ e h,
    fun e h => ?_⟩
  by_cases h0 : (ex ⟨cmd, [name, "stop"]⟩).exitCode = 0
  · have hh : (sysV.Restart ⟨cmd, name⟩ ex).2 = (run ex cmd [name, "start"]).2.2 := by
      simp [sysV.Restart, sysV.Stop, sysV.Start, run, h0]
    rw [hh] at h
    exact run_error_names_tool ex cmd _ e h
  · have hh : (sysV.Restart ⟨cmd, name⟩ ex).2 = (run ex cmd [name, "stop"]).2.2 := by
      simp [sysV.Restart, sysV.Stop, run, h0]
    rw [hh] at h
    exact run_error_names_tool ex cmd _ e h

/-- Witness for the amended C5 on a failing exec layer. -/
theorem op_error_names_tool_witness :
    RunError.cmd ⟨"initctl", 1⟩ = "initctl" ∧
    strContains (RunError.message ⟨"initctl", 1⟩) "initctl" = true :=
  (op_error_names_tool "initctl" "nginx" exBoom).1 ⟨"initctl", 1⟩ (by decide)

/-- Claim C6, counterexample: the claim says every control operation makes
exactly one subprocess invocation, yet the upstart Restart spawns two (its
stop and its start). -/
theorem restart_two_invocations_cex :
    countExecs (upstart.Restart ⟨"initctl", "nginx"⟩ exBoom).1 = 2 := by
  decide

/-- Claim C6, amended: Start and Stop on every variant, and the systemd
Restart, each spawn exactly one subprocess; the upstart Restart spawns
exactly two, and the SysV Restart spawns two when the stop step succeeds
and one when it fails. -/
theorem control_invocation_counts (cmd name : String) (ex : ExecEnv) :
    countExecs (upstart.Start ⟨cmd, name⟩ ex).1 = 1 ∧
    countExecs (upstart.Stop ⟨cmd, name⟩ ex).1 = 1 ∧
    countExecs (systemd.Start ⟨cmd, name⟩ ex).1 = 1 ∧
    countExecs (systemd.Stop ⟨cmd, name⟩ ex).1 = 1 ∧
    countExecs (systemd.Restart ⟨cmd, name⟩ ex).1 = 1 ∧
    countExecs (sysV.Start ⟨cmd, name⟩ ex).1 = 1 ∧
    countExecs (sysV.Stop ⟨cmd, name⟩ ex).1 = 1 ∧
    countExecs (upstart.Restart ⟨cmd, name⟩ ex).1 = 2 ∧
    countExecs (sysV.Restart ⟨cmd, name⟩ ex).1 =
      (if (ex ⟨cmd, [name, "stop"]⟩).exitCode = 0 then 2 else 1) := by
  refine ⟨rfl, rfl, rfl, rfl, rfl, rfl, rfl, rfl, ?_⟩
  by_cases h0 : (ex ⟨cmd, [name, "stop"]⟩).exitCode = 0 <;>
    simp [sysV.Restart, sysV.Stop, sysV.Start, run, countExecs, h0]

/-- Claim C7: when none of the three detection checks succeeds, `New`
returns no handle and fails with the detection error. -/
theorem new_detection_error (env : DetectEnv) (name : String)
    (h1 : isSystemd env = false) (h2 : isUpstart env = false)
    (h3 : isSysV env = false) :
    New env name = Except.error NewError.detectionFailed := by
  simp [New, h1, h2, h3]

/-- Witness for C7 on a host with no backend artifacts. -/
theorem new_detection_error_witness :
    isSystemd envNone = false ∧ isUpstart envNone = false ∧
    isSysV envNone = false ∧
    New envNone "nginx" = Except.error NewError.detectionFailed :=
  ⟨rfl, rfl, rfl, new_detection_error envNone "nginx" rfl rfl rfl⟩

/-- Claim C8: upstart is detected exactly when the bridge binary exists, or
the init binary exists and the successful `--version` output contains
"init (upstart"; and the `/sbin/init --version` subprocess is spawned
exactly when the bridge check failed and the init binary exists. -/
theorem upstart_detection_iff (env : DetectEnv) :
    isUpstart env =
      (env.stat "/sbin/upstart-udev-bridge" ||
        (env.stat "/sbin/init" &&
          (env.initVersionOut.map
            (fun out => strContains out "init (upstart")).getD false)) ∧
    (isUpstartT env).2 =
      (!env.stat "/sbin/upstart-udev-bridge" && env.stat "/sbin/init") := by
  unfold isUpstart isUpstartT
  cases hb : env.stat "/sbin/upstart-udev-bridge" <;>
    cases hi : env.stat "/sbin/init" <;>
      cases hv : env.initVersionOut <;>
        simp [hb, hi, hv]

/-- Claim C9: in both the upstart and the SysV restart, the 50ms sleep sits
between the stop spawn and the start spawn in the event trace: whenever a
start subprocess is spawned it is preceded by the sleep, which follows the
stop.  (In the SysV case a failed stop produces neither sleep nor start.) -/
theorem restart_pause_between_stop_and_start (cmd name : String) (ex : ExecEnv) :
    (upstart.Restart ⟨cmd, name⟩ ex).1 =
      [Event.exec ⟨cmd, ["stop", name]⟩, Event.sleep 50,
        Event.exec ⟨cmd, ["start", name]⟩] ∧
    (sysV.Restart ⟨cmd, name⟩ ex).1 =
      (if (ex ⟨cmd, [name, "stop"]⟩).exitCode = 0 then
        [Event.exec ⟨cmd, [name, "stop"]⟩, Event.sleep 50,
          Event.exec ⟨cmd, [name, "start"]⟩]
       else [Event.exec ⟨cmd, [name, "stop"]⟩]) := by
  refine ⟨rfl, ?_⟩
  by_cases h0 : (ex ⟨cmd, [name, "stop"]⟩).exitCode = 0 <;>
    simp [sysV.Restart, sysV.Stop, sysV.Start, run, h0]

/-- Claim C10: every subprocess any control operation spawns receives the
bound binary and a two-element argument vector holding the service name
verbatim as a single element — the model hands `exec.Command` the vector
directly, with no shell in between, so this holds for names with spaces or
metacharacters too. -/
theorem name_passed_verbatim (cmd name : String) (ex : ExecEnv) :
    ((upstart.Start ⟨cmd, name⟩ ex).1.all (eventNameIntact cmd name)) = true ∧
    ((upstart.Stop ⟨cmd, name⟩ ex).1.all (eventNameIntact cmd name)) = true ∧
    ((upstart.Restart ⟨cmd, name⟩ ex).1.all (eventNameIntact cmd name)) = true ∧
    ((systemd.Start ⟨cmd, name⟩ ex).1.all (eventNameIntact cmd name)) = true ∧
    ((systemd.Stop ⟨cmd, name⟩ ex).1.all (eventNameIntact cmd name)) = true ∧
    ((systemd.Restart ⟨cmd, name⟩ ex).1.all (eventNameIntact cmd name)) = true ∧
    ((sysV.Start ⟨cmd, name⟩ ex).1.all (eventNameIntact cmd name)) = true ∧
    ((sysV.Stop ⟨cmd, name⟩ ex).1.all (eventNameIntact cmd name)) = true ∧
    ((sysV.Restart ⟨cmd, name⟩ ex).1.all (eventNameIntact cmd name)) = true := by
  refine ⟨?_, ?_, ?_, ?_, ?_, ?_, ?_, ?_, ?_⟩
  case refine_9 =>
    by_cases h0 : (ex ⟨cmd, [name, "stop"]⟩).exitCode = 0 <;>
      simp [sysV.Restart, sysV.Stop, sysV.Start, run, eventNameIntact, h0]
  all_goals
    simp [upstart.Start, upstart.Stop, upstart.Restart, systemd.Start,
      systemd.Stop, systemd.Restart, sysV.Start, sysV.Stop, run,
      eventNameIntact]

end Servicectl
